import Mathlib

/-!
Verification of the response-normalisation and orchestration logic of the
AI medical assistant (gradio_app.py).

The development shallowly embeds:
* Python's `json.loads` as a fuel-based recursive-descent parser over
  `List Char` (`jsonLoads`), producing values of the inductive type `JValue`;
  objects keep their key/value pairs in parse order and lookups resolve
  duplicate keys last-wins, numbers keep their source lexeme;
* `safe_parse_json` (gradio_app.py, lines 33-59): direct parse, then
  first-brace/last-brace substring extraction, then the fixed fallback record;
* the key-defaulting step of `process_inputs` (lines 102-104), as
  `ensure_keys`; the result type is `Option` because `parsed.get` raises
  `AttributeError` when the parsed JSON value is not an object -- `none`
  models that uncaught exception;
* the orchestrator `process_inputs` (lines 62-121), parameterised by the
  external collaborators (transcription, image encoding, multimodal call,
  speech synthesis) and by whether the fixed output audio file pre-exists;
  an event trace records the file unlink and the synthesis call order.
-/

namespace MedAssist

/-- JSON values as produced by the Python `json` module.  Objects keep their
key/value pairs in parse order (duplicate keys resolve last-wins at lookup
time, matching dict construction); numbers keep their source lexeme. -/
inductive JValue where
  | null : JValue
  | bool : Bool → JValue
  | num : String → JValue
  | str : String → JValue
  | arr : List JValue → JValue
  | obj : List (String × JValue) → JValue

/-- JSON whitespace accepted by Python's json module: space, tab, LF, CR. -/
def isJsonWs (c : Char) : Bool :=
  c = ' ' || c = '\t' || c = '\n' || c = '\r'

/-- Drop leading JSON whitespace. -/
def skipWs : List Char → List Char
  | [] => []
  | c :: cs => if isJsonWs c then skipWs cs else c :: cs

/-- Value of a hexadecimal digit character. -/
def hexVal (c : Char) : Option Nat :=
  if '0' ≤ c ∧ c ≤ '9' then some (c.toNat - '0'.toNat)
  else if 'a' ≤ c ∧ c ≤ 'f' then some (c.toNat - 'a'.toNat + 10)
  else if 'A' ≤ c ∧ c ≤ 'F' then some (c.toNat - 'A'.toNat + 10)
  else none

/-- The single-character JSON escapes (`\" \\ \/ \b \f \n \r \t`). -/
def escCharOf (e : Char) : Option Char :=
  if e = '"' then some '"'
  else if e = '\\' then some '\\'
  else if e = '/' then some '/'
  else if e = 'b' then some (Char.ofNat 8)
  else if e = 'f' then some (Char.ofNat 12)
  else if e = 'n' then some '\n'
  else if e = 'r' then some '\r'
  else if e = 't' then some '\t'
  else none

/-- Combine four hex digits into a code unit. -/
def hex4 (h1 h2 h3 h4 : Char) : Option Nat :=
  match hexVal h1, hexVal h2, hexVal h3, hexVal h4 with
  | some a, some b, some c, some d => some (((a * 16 + b) * 16 + c) * 16 + d)
  | _, _, _, _ => none

/-- Body of a JSON string literal (after the opening quote), strict mode:
raw control characters are rejected, `\uXXXX` escapes combine surrogate
pairs when a high surrogate is directly followed by a low-surrogate escape.
The accumulator holds the decoded characters in reverse.  Fuel decreases
on every step; each step consumes at least one input character. -/
def parseStrAux : Nat → List Char → List Char → Option (String × List Char)
  | 0, _, _ => none
  | _ + 1, [], _ => none
  | fuel + 1, c :: rest, acc =>
    if c = '"' then some (String.mk acc.reverse, rest)
    else if c = '\\' then
      match rest with
      | 'u' :: h1 :: h2 :: h3 :: h4 :: rest2 =>
        match hex4 h1 h2 h3 h4 with
        | none => none
        | some n =>
          if 0xD800 ≤ n ∧ n < 0xDC00 then
            match rest2 with
            | '\\' :: 'u' :: g1 :: g2 :: g3 :: g4 :: rest3 =>
              match hex4 g1 g2 g3 g4 with
              | none => none
              | some m =>
                if 0xDC00 ≤ m ∧ m < 0xE000 then
                  parseStrAux fuel rest3
                    (Char.ofNat (0x10000 + (n - 0xD800) * 0x400 + (m - 0xDC00)) :: acc)
                else parseStrAux fuel rest2 (Char.ofNat n :: acc)
            | _ => parseStrAux fuel rest2 (Char.ofNat n :: acc)
          else parseStrAux fuel rest2 (Char.ofNat n :: acc)
      | e :: rest2 =>
        match escCharOf e with
        | some c2 => parseStrAux fuel rest2 (c2 :: acc)
        | none => none
      | [] => none
    else if c.toNat < 0x20 then none
    else parseStrAux fuel rest (c :: acc)

/-- Parse a JSON string literal body; fuel `length + 1` always suffices. -/
def parseJString (cs : List Char) : Option (String × List Char) :=
  parseStrAux (cs.length + 1) cs []

/-- Longest digit run at the head of the list, and the remainder. -/
def spanDigits (cs : List Char) : List Char × List Char :=
  (cs.takeWhile Char.isDigit, cs.dropWhile Char.isDigit)

/-- Integer part of a JSON number: `0`, or a nonzero digit followed by any
digits (leading zeros are not absorbed, matching the json NUMBER regex). -/
def parseIntDigits : List Char → Option (List Char × List Char)
  | [] => none
  | c :: rest =>
    if c = '0' then some ([c], rest)
    else if c.isDigit then
      let p := spanDigits rest
      some (c :: p.1, p.2)
    else none

/-- Optional fraction part `.digits`; consumed only when at least one digit
follows the dot (the regex backtracks otherwise). -/
def parseFrac (cs : List Char) : List Char × List Char :=
  match cs with
  | '.' :: rest =>
    match spanDigits rest with
    | ([], _) => ([], cs)
    | (ds, r) => ('.' :: ds, r)
  | _ => ([], cs)

/-- Optional exponent part `[eE][+-]?digits`; consumed only when at least
one digit is present (the regex backtracks otherwise). -/
def parseExp (cs : List Char) : List Char × List Char :=
  match cs with
  | e :: s :: rest2 =>
    if e = 'e' || e = 'E' then
      if s = '+' || s = '-' then
        match spanDigits rest2 with
        | ([], _) => ([], e :: s :: rest2)
        | (ds, r) => (e :: s :: ds, r)
      else
        match spanDigits (s :: rest2) with
        | ([], _) => ([], e :: s :: rest2)
        | (ds, r) => (e :: ds, r)
    else ([], e :: s :: rest2)
  | other => ([], other)

/-- JSON number: optional minus, integer part, optional fraction and
exponent.  Returns the matched lexeme and the remainder. -/
def parseNumber (cs : List Char) : Option (String × List Char) :=
  let p0 : List Char × List Char :=
    match cs with
    | '-' :: rest => (['-'], rest)
    | _ => ([], cs)
  match parseIntDigits p0.2 with
  | none => none
  | some (ip, r1) =>
    let pf := parseFrac r1
    let pe := parseExp pf.2
    some (String.mk (p0.1 ++ ip ++ pf.1 ++ pe.1), pe.2)

/-- Non-composite JSON values: the literals `null`, `true`, `false`, a
number, or Python's extensions `NaN`, `Infinity`, `-Infinity`. -/
def parseAtom (cs : List Char) : Option (JValue × List Char) :=
  if List.isPrefixOf "null".data cs then some (JValue.null, cs.drop 4)
  else if List.isPrefixOf "true".data cs then some (JValue.bool true, cs.drop 4)
  else if List.isPrefixOf "false".data cs then some (JValue.bool false, cs.drop 5)
  else
    match parseNumber cs with
    | some (lex, r) => some (JValue.num lex, r)
    | none =>
      if List.isPrefixOf "NaN".data cs then some (JValue.num "NaN", cs.drop 3)
      else if List.isPrefixOf "Infinity".data cs then some (JValue.num "Infinity", cs.drop 8)
      else if List.isPrefixOf "-Infinity".data cs then some (JValue.num "-Infinity", cs.drop 9)
      else none

mutual

/-- Parse one JSON value at the head of the input (no leading whitespace
expected); mirrors the scanner of Python's json module. -/
def parseValue : Nat → List Char → Option (JValue × List Char)
  | 0, _ => none
  | fuel + 1, cs =>
    match cs with
    | [] => none
    | '"' :: rest =>
      match parseJString rest with
      | some (s, r) => some (JValue.str s, r)
      | none => none
    | '\x7b' :: rest =>
      match skipWs rest with
      | '\x7d' :: r2 => some (JValue.obj [], r2)
      | r1 => parseMembers fuel r1 []
    | '[' :: rest =>
      match skipWs rest with
      | ']' :: r2 => some (JValue.arr [], r2)
      | r1 => parseElems fuel r1 []
    | _ => parseAtom cs

/-- Parse the members of an object, positioned at a (quoted) key; the
accumulator holds earlier members in reverse. -/
def parseMembers : Nat → List Char → List (String × JValue) → Option (JValue × List Char)
  | 0, _, _ => none
  | fuel + 1, cs, acc =>
    match cs with
    | '"' :: rest =>
      match parseJString rest with
      | some (k, r1) =>
        match skipWs r1 with
        | ':' :: r2 =>
          match parseValue fuel (skipWs r2) with
          | some (v, r3) =>
            match skipWs r3 with
            | ',' :: r4 => parseMembers fuel (skipWs r4) ((k, v) :: acc)
            | '\x7d' :: r4 => some (JValue.obj ((k, v) :: acc).reverse, r4)
            | _ => none
          | none => none
        | _ => none
      | none => none
    | _ => none

/-- Parse the elements of an array, positioned at a value; the accumulator
holds earlier elements in reverse. -/
def parseElems : Nat → List Char → List JValue → Option (JValue × List Char)
  | 0, _, _ => none
  | fuel + 1, cs, acc =>
    match parseValue fuel cs with
    | some (v, r1) =>
      match skipWs r1 with
      | ',' :: r2 => parseElems fuel (skipWs r2) (v :: acc)
      | ']' :: r2 => some (JValue.arr (v :: acc).reverse, r2)
      | _ => none
    | none => none

end

/-- Python's `json.loads`: skip surrounding whitespace, parse exactly one
value, reject trailing data.  `none` models a raised `JSONDecodeError`.
Fuel `2 * length + 2` always suffices (every fuel decrement pairs with the
consumption of at least one character, costing at most two per character). -/
def jsonLoads (s : String) : Option JValue :=
  match parseValue (2 * s.length + 2) (skipWs s.data) with
  | some (v, rest) => if (skipWs rest).isEmpty then some v else none
  | none => none

/-- Python `str.find(ch)`: index of the first occurrence (`None` for -1). -/
def pyFind (s : String) (c : Char) : Option Nat :=
  List.findIdx? (fun x => x = c) s.data

/-- Python `str.rfind(ch)`: index of the last occurrence (`None` for -1). -/
def pyRfind (s : String) (c : Char) : Option Nat :=
  match List.findIdx? (fun x => x = c) s.data.reverse with
  | some i => some (s.data.length - 1 - i)
  | none => none

/-- Python slice `s[a:b]`. -/
def pySlice (s : String) (a b : Nat) : String :=
  String.mk ((s.data.drop a).take (b - a))

/-- Characters stripped by Python's `str.strip()` (Unicode whitespace). -/
def pyIsSpace (c : Char) : Bool :=
  let n := c.toNat
  decide ((9 ≤ n ∧ n ≤ 13) ∨ (28 ≤ n ∧ n ≤ 31) ∨ n = 32 ∨ n = 0x85 ∨ n = 0xA0 ∨
    n = 0x1680 ∨ (0x2000 ≤ n ∧ n ≤ 0x200A) ∨ n = 0x2028 ∨ n = 0x2029 ∨
    n = 0x202F ∨ n = 0x205F ∨ n = 0x3000)

/-- Python `s.strip()`: drop leading and trailing whitespace. -/
def pyStrip (s : String) : List Char :=
  ((s.data.dropWhile pyIsSpace).reverse.dropWhile pyIsSpace).reverse

/-- The tier-3 fallback record of `safe_parse_json` (lines 56-59):
a fixed analysis literal and the stripped input truncated to 2000
characters as treatment. -/
def fallbackReply (model_text : String) : JValue :=
  JValue.obj
    [("analysis", JValue.str "Could not parse structured analysis from the model output."),
     ("treatment", JValue.str (String.mk ((pyStrip model_text).take 2000)))]

/-- `safe_parse_json` (gradio_app.py lines 33-59): direct `json.loads`;
on failure, the inclusive substring from the first `\x7b` to the last
`\x7d` (when both exist with the close strictly after the open) is parsed;
on failure again, the fixed fallback record. -/
def safe_parse_json (model_text : String) : JValue :=
  match jsonLoads model_text with
  | some v => v
  | none =>
    match pyFind model_text '\x7b', pyRfind model_text '\x7d' with
    | some s, some e =>
      if s < e then
        match jsonLoads (pySlice model_text s (e + 1)) with
        | some v => v
        | none => fallbackReply model_text
      else fallbackReply model_text
    | _, _ => fallbackReply model_text

/-- Python `dict.get(k, d)` over the parse-ordered pair list: the value of
the last binding of `k` (dict construction is last-wins), else `d`. -/
def pyDictGet (kvs : List (String × JValue)) (k : String) (d : JValue) : JValue :=
  match List.find? (fun p => p.1 == k) kvs.reverse with
  | some p => p.2
  | none => d

/-- The key-defaulting step of `process_inputs` (lines 102-104):
`parsed.get("analysis", ...)` and `parsed.get("treatment", ...)`.
`none` models the `AttributeError` raised when `parsed` is not a dict. -/
def ensure_keys (v : JValue) : Option (JValue × JValue) :=
  match v with
  | JValue.obj kvs =>
    some (pyDictGet kvs "analysis" (JValue.str "Analysis not available."),
          pyDictGet kvs "treatment" (JValue.str "Treatment not available."))
  | _ => none

/-- The Response Normalizer of the spec: `safe_parse_json` followed by the
key-defaulting step. -/
def normalizeReply (model_text : String) : Option (JValue × JValue) :=
  ensure_keys (safe_parse_json model_text)

/-- Lowercase hexadecimal digit character for `n < 16`. -/
def hexDigitChar (n : Nat) : Char :=
  if n < 10 then Char.ofNat ('0'.toNat + n) else Char.ofNat ('a'.toNat + n - 10)

/-- A JSON escaping of one character sufficient for any string value:
quote and backslash get their short escapes, control characters a
`\u00xx` escape, everything else stands for itself. -/
def escapeChar (c : Char) : List Char :=
  if c = '"' then ['\\', '"']
  else if c = '\\' then ['\\', '\\']
  else if c.toNat < 0x20 then
    ['\\', 'u', '0', '0', hexDigitChar (c.toNat / 16), hexDigitChar (c.toNat % 16)]
  else [c]

/-- Escape every character of a string value. -/
def escapeList : List Char → List Char
  | [] => []
  | c :: cs => escapeChar c ++ escapeList cs

/-- The literal text of the JSON object with exactly the two keys
`analysis` and `treatment` bound to the string values `A` and `T`:
the input shape of the spec's idempotence property. -/
def renderReply (A T : String) : String :=
  String.mk ('\x7b' :: '"' :: ("analysis".data ++ '"' :: ':' :: ' ' :: '"' ::
    (escapeList A.data ++ '"' :: ',' :: ' ' :: '"' :: ("treatment".data ++ '"' :: ':' :: ' ' :: '"' ::
      (escapeList T.data ++ ['"', '\x7d'])))))

/-- A 5000-character input with no brace and no parseable JSON anywhere. -/
def longRaw : String := String.mk (List.replicate 5000 'a')

/-- Four lowercase hex digits of a code unit `n < 0x10000`. -/
def hex4Digits (n : Nat) : List Char :=
  [hexDigitChar (n / 4096 % 16), hexDigitChar (n / 256 % 16),
   hexDigitChar (n / 16 % 16), hexDigitChar (n % 16)]

/-- Escaping of one character as performed by `json.dumps` with its default
`ensure_ascii=True`: short escapes, `\u00xx` for other controls, printable
ASCII verbatim, `\uxxxx` (with surrogate pairs beyond the BMP) otherwise. -/
def dumpsEscChar (c : Char) : List Char :=
  if c = '"' then ['\\', '"']
  else if c = '\\' then ['\\', '\\']
  else if c = '\n' then ['\\', 'n']
  else if c = '\r' then ['\\', 'r']
  else if c = '\t' then ['\\', 't']
  else if c.toNat = 8 then ['\\', 'b']
  else if c.toNat = 12 then ['\\', 'f']
  else if c.toNat < 0x20 then
    ['\\', 'u', '0', '0', hexDigitChar (c.toNat / 16), hexDigitChar (c.toNat % 16)]
  else if c.toNat < 0x7f then [c]
  else if c.toNat ≤ 0xFFFF then '\\' :: 'u' :: hex4Digits c.toNat
  else
    ('\\' :: 'u' :: hex4Digits (0xD800 + (c.toNat - 0x10000) / 0x400)) ++
    ('\\' :: 'u' :: hex4Digits (0xDC00 + (c.toNat - 0x10000) % 0x400))

/-- `dumpsEscChar` over a whole string. -/
def dumpsEsc : List Char → List Char
  | [] => []
  | c :: cs => dumpsEscChar c ++ dumpsEsc cs

/-- `json.dumps({"analysis": a, "treatment": t})` with the default
separators and `ensure_ascii=True`: the fallback payloads the orchestrator
synthesises locally when the multimodal call raises (lines 84-87, 94-97). -/
def pyJsonDumps2 (a t : String) : String :=
  String.mk ('\x7b' :: '"' :: ("analysis".data ++ '"' :: ':' :: ' ' :: '"' ::
    (dumpsEsc a.data ++ '"' :: ',' :: ' ' :: '"' :: ("treatment".data ++ '"' :: ':' :: ' ' :: '"' ::
      (dumpsEsc t.data ++ ['"', '\x7d'])))))

mutual

/-- Structural size of a JSON value, used as rendering fuel. -/
def jsize : JValue → Nat
  | JValue.null => 1
  | JValue.bool _ => 1
  | JValue.num _ => 1
  | JValue.str _ => 1
  | JValue.arr xs => 1 + jsizeList xs
  | JValue.obj kvs => 1 + jsizeKvs kvs

/-- Structural size of a list of JSON values. -/
def jsizeList : List JValue → Nat
  | [] => 0
  | v :: vs => 1 + jsize v + jsizeList vs

/-- Structural size of a list of key/value pairs. -/
def jsizeKvs : List (String × JValue) → Nat
  | [] => 0
  | (_, v) :: ps => 1 + jsize v + jsizeKvs ps

end

/-- Rendering of a decoded JSON value inside a Python f-string / `repr`,
fuel-indexed for structural recursion (the fuel `sizeOf v` always
suffices).  Exact for the `None`/boolean/string/integer-lexeme cases the
theorems exercise; nested-container and float rendering follows the shape
of CPython's `repr` without reproducing its string re-escaping. -/
def pyReprFuel : Nat → JValue → String
  | _, JValue.null => "None"
  | _, JValue.bool true => "True"
  | _, JValue.bool false => "False"
  | _, JValue.num lex => lex
  | _, JValue.str s => "'" ++ s ++ "'"
  | 0, _ => ""
  | fuel + 1, JValue.arr xs =>
    "[" ++ String.intercalate ", " (xs.map (pyReprFuel fuel)) ++ "]"
  | fuel + 1, JValue.obj kvs =>
    "\x7b" ++ String.intercalate ", "
      (kvs.map (fun p => "'" ++ p.1 ++ "': " ++ pyReprFuel fuel p.2)) ++ "\x7d"

/-- Python `str()` of a decoded JSON value, as used by the f-strings at
lines 108 and 118: a string renders as itself, other values via their
`repr`. -/
def pyStr (v : JValue) : String :=
  match v with
  | JValue.str s => s
  | JValue.null => "None"
  | JValue.bool true => "True"
  | JValue.bool false => "False"
  | JValue.num lex => lex
  | other => pyReprFuel (jsize other) other

/-- The external collaborators and ambient state `process_inputs` interacts
with.  `Except.error e` models a raised exception whose `str(e)` is `e`;
`transcribe` may return Python `None` (modelled `none`). -/
structure Collab where
  transcribe : String → Except String (Option String)
  encodeImage : String → Except String String
  analyze : String → Option String → Except String String
  tts : String → Except String Unit
  finalExists : Bool

/-- Observable file/synthesis events of step 4 of `process_inputs`, in
order: the guarded unlink of the stale `final.mp3`, then the
`text_to_speech_with_gtts` call. -/
inductive AudioEvent where
  | unlinked : AudioEvent
  | synthCalled : String → AudioEvent

/-- Step 1 of `process_inputs` (lines 63-71): optional speech-to-text with
inline error substitution.  An absent or empty filepath is falsy. -/
def sttStep (env : Collab) (audio : Option String) : String :=
  match audio with
  | none => ""
  | some ap =>
    if ap = "" then ""
    else
      match env.transcribe ap with
      | Except.ok r => r.getD ""
      | Except.error e => "[STT error: " ++ e ++ "]"

/-- The verbatim system prompt template (lines 19-30). -/
def SYSTEM_PROMPT_TEMPLATE : String :=
  "\nYou are a professional medical doctor speaking directly to a patient. \nYou will be given an image to analyze and an optional transcription of the patient's spoken context.\nProduce a JSON object (and nothing else) with exactly two keys: \"analysis\" and \"treatment\".\n\nRules:\n- \"analysis\": one or two concise sentences describing what appears medically wrong in the image. Use a natural doctor voice, start with \"With what I see, ...\" and keep it short.\n- \"treatment\": 3 to 4 sentences giving practical remedies, next steps, and when to seek professional care. Use a natural doctor voice, clear steps, no bullet points or numbered lists.\n- Do not include any extra keys, commentary, or markdown. Respond ONLY with valid JSON.\n\nIf the image is missing or unclear, set \"analysis\" to \"Image not provided or unclear\" and give a general short treatment in \"treatment\".\n"

/-- Truthiness of the optional image filepath (`if image_filepath:`). -/
def imgTruthy (image : Option String) : Bool :=
  match image with
  | some ip => decide (ip ≠ "")
  | none => false

/-- Step 2 of `process_inputs` (lines 73-76 and 90): template, optional
transcription line, and the no-image notice appended in the else branch. -/
def promptStep (stt : String) (imagePresent : Bool) : String :=
  let p := SYSTEM_PROMPT_TEMPLATE ++ "\n\n"
  let p := if stt = "" then p else p ++ "Patient speech (transcription): " ++ stt ++ "\n\n"
  if imagePresent then p else p ++ "No image provided."

/-- Steps 2b-2c of `process_inputs` (lines 78-97): the multimodal call with
or without an image, substituting a locally dumped fallback JSON payload
when the call (or the image encoding) raises. -/
def modelStep (env : Collab) (prompt : String) (imagePath : Option String) : String :=
  match imagePath with
  | some ip =>
    match env.encodeImage ip with
    | Except.ok enc =>
      match env.analyze prompt (some enc) with
      | Except.ok raw => raw
      | Except.error e =>
        pyJsonDumps2 "Image processing error" ("Failed to analyze image due to error: " ++ e)
    | Except.error e =>
      pyJsonDumps2 "Image processing error" ("Failed to analyze image due to error: " ++ e)
  | none =>
    match env.analyze prompt none with
    | Except.ok raw => raw
    | Except.error e =>
      pyJsonDumps2 "Image not provided or unclear"
        ("No image was provided. If you can, please upload a clear photo. Error detail: " ++ e)

/-- The image argument reaching the multimodal step: the filepath when
truthy, nothing otherwise. -/
def imgArg (image : Option String) : Option String :=
  if imgTruthy image then image else none

/-- The raw model text reaching the normaliser for a given submission. -/
def rawOf (env : Collab) (audio image : Option String) : String :=
  modelStep env (promptStep (sttStep env audio) (imgTruthy image)) (imgArg image)

/-- The orchestrator `process_inputs` (lines 62-121).  Returns the four UI
values (transcript, analysis, treatment, audio path) plus the audio-step
event trace; `none` models the uncaught `AttributeError` of the
key-defaulting step on a non-object parse.  On synthesis failure the path
is dropped and the failure text appended to the treatment (lines 115-118),
after the guarded unlink of the stale output file (lines 112-113). -/
def process_inputs (env : Collab) (audio image : Option String) :
    Option (String × JValue × JValue × Option String × List AudioEvent) :=
  let stt := sttStep env audio
  let raw := rawOf env audio image
  match ensure_keys (safe_parse_json raw) with
  | none => none
  | some (analysis, treatment) =>
    let tts_text := pyStr analysis ++ " " ++ pyStr treatment
    let preEvents := if env.finalExists then [AudioEvent.unlinked] else []
    match env.tts tts_text with
    | Except.ok _ =>
      some (stt, analysis, treatment, some "final.mp3",
        preEvents ++ [AudioEvent.synthCalled tts_text])
    | Except.error e =>
      some (stt, analysis,
        JValue.str (pyStr treatment ++ "\n\n[TTS generation failed: " ++ e ++ "]"),
        none, preEvents ++ [AudioEvent.synthCalled tts_text])

/-! ## Helper lemmas -/

/-- Tier 1 of `safe_parse_json`: a direct parse success is returned
unchanged. -/
theorem spj_of_loads (s : String) (v : JValue) (h : jsonLoads s = some v) :
    safe_parse_json s = v := by
  simp [safe_parse_json, h]

/-- Tier 2 of `safe_parse_json`: when the direct parse fails and the
first-brace/last-brace substring parses, that value is returned. -/
theorem spj_of_slice (s : String) (i j : Nat) (v : JValue)
    (h1 : jsonLoads s = none) (h2 : pyFind s '\x7b' = some i)
    (h3 : pyRfind s '\x7d' = some j) (h4 : i < j)
    (h5 : jsonLoads (pySlice s i (j + 1)) = some v) :
    safe_parse_json s = v := by
  simp [safe_parse_json, h1, h2, h3, h4, h5]

/-- Tier 3 of `safe_parse_json`: when both parse attempts fail, the
fallback record results. -/
theorem spj_of_fail (s : String)
    (h1 : jsonLoads s = none)
    (h2 : ∀ i j, pyFind s '\x7b' = some i → pyRfind s '\x7d' = some j → i < j →
      jsonLoads (pySlice s i (j + 1)) = none) :
    safe_parse_json s = fallbackReply s := by
  simp only [safe_parse_json, h1]
  cases hf : pyFind s '\x7b' with
  | none => rfl
  | some i =>
    cases hr : pyRfind s '\x7d' with
    | none => rfl
    | some j =>
      by_cases hij : i < j
      · simp [hij, h2 i j hf hr hij]
      · simp [hij]

/-- A lookup whose key is bound nowhere yields the supplied default. -/
theorem pyDictGet_of_no_key (kvs : List (String × JValue)) (k : String) (d : JValue)
    (h : ∀ p ∈ kvs, ¬(p.1 = k)) : pyDictGet kvs k d = d := by
  have hf : List.find? (fun p => p.1 == k) kvs.reverse = none := by
    rw [List.find?_eq_none]
    intro p hp
    have := h p (List.mem_reverse.mp hp)
    simpa using this
  simp [pyDictGet, hf]

/-- `jsonLoads` fails whenever the underlying value parse fails. -/
theorem jsonLoads_of_parse_none (s : String)
    (h : parseValue (2 * s.length + 2) (skipWs s.data) = none) :
    jsonLoads s = none := by
  simp [jsonLoads, h]

/-- A search over a repeated character that never matches finds nothing. -/
theorem findIdx?_replicate_none (p : Char → Bool) (a : Char) (h : p a = false) :
    ∀ (n i : Nat), List.findIdx? p (List.replicate n a) i = none := by
  intro n
  induction n with
  | zero => intro i; simp
  | succ n ih => intro i; simp [List.replicate_succ, List.findIdx?_cons, h, ih]

/-- Dropping a never-satisfied predicate from a repeated character list is
the identity. -/
theorem dropWhile_replicate (p : Char → Bool) (a : Char) (h : p a = false) (n : Nat) :
    List.dropWhile p (List.replicate n a) = List.replicate n a := by
  cases n with
  | zero => simp
  | succ n => simp [List.replicate_succ, List.dropWhile_cons, h]

/-- `skipWs` keeps a list whose head is not whitespace. -/
theorem skipWs_cons_of_not (c : Char) (t : List Char) (h : isJsonWs c = false) :
    skipWs (c :: t) = c :: t := by
  simp [skipWs, h]

/-- No atom parse starts at a lowercase letter `a`. -/
theorem parseAtom_a (t : List Char) : parseAtom ('a' :: t) = none := by
  have h1 : "null".data = ['n', 'u', 'l', 'l'] := rfl
  have h2 : "true".data = ['t', 'r', 'u', 'e'] := rfl
  have h3 : "false".data = ['f', 'a', 'l', 's', 'e'] := rfl
  have h4 : "NaN".data = ['N', 'a', 'N'] := rfl
  have h5 : "Infinity".data = ['I', 'n', 'f', 'i', 'n', 'i', 't', 'y'] := rfl
  have h6 : "-Infinity".data = ['-', 'I', 'n', 'f', 'i', 'n', 'i', 't', 'y'] := rfl
  simp [parseAtom, h1, h2, h3, h4, h5, h6, List.isPrefixOf, parseNumber, parseIntDigits]

/-- No value parse starts at a lowercase letter `a`. -/
theorem parseValue_letter_a (fuel : Nat) (t : List Char) :
    parseValue (fuel + 1) ('a' :: t) = none := by
  simp [parseValue, parseAtom_a]

/-- The 5000-character input is a repeated letter. -/
theorem longRaw_data : longRaw.data = List.replicate 5000 'a' := rfl

/-- The 5000-character input does not parse as JSON. -/
theorem longRaw_loads : jsonLoads longRaw = none := by
  apply jsonLoads_of_parse_none
  have hrep : List.replicate 5000 'a' = 'a' :: List.replicate 4999 'a' := by
    rw [show (5000 : Nat) = 4999 + 1 from rfl, List.replicate_succ]
  have hlen : longRaw.length = 5000 := by
    rw [longRaw, String.length_mk, List.length_replicate]
  rw [longRaw_data, hrep, skipWs_cons_of_not 'a' (List.replicate 4999 'a') rfl, hlen,
    show 2 * 5000 + 2 = 10001 + 1 from rfl]
  exact parseValue_letter_a 10001 _

/-- The 5000-character input contains no opening brace. -/
theorem longRaw_noBrace : pyFind longRaw '\x7b' = none := by
  rw [pyFind, longRaw_data]
  exact findIdx?_replicate_none _ _ rfl 5000 0

/-- Stripping the 5000-character input is the identity. -/
theorem longRaw_strip : pyStrip longRaw = List.replicate 5000 'a' := by
  have hpa : pyIsSpace 'a' = false := rfl
  rw [pyStrip, longRaw_data, dropWhile_replicate _ _ hpa, List.reverse_replicate,
    dropWhile_replicate _ _ hpa, List.reverse_replicate]

/-! ## Claim theorems -/

/-- C7: normalising the empty input string reaches tier 3 (the direct parse
fails and no opening brace exists), yielding the fixed fallback analysis
literal and the empty treatment. -/
theorem c7_empty_input :
    jsonLoads "" = none ∧ pyFind "" '\x7b' = none ∧
    normalizeReply "" =
      some (JValue.str "Could not parse structured analysis from the model output.",
            JValue.str "") :=
  ⟨rfl, rfl, rfl⟩

/-- C3: the normaliser tries exactly three tiers in order with first
success winning: the whole-string parse; else the inclusive substring from
the first opening brace to the last closing brace (only when both exist
with the close strictly after the open); else the fixed fallback record. -/
theorem c3_three_tier_order (s : String) :
    (∀ v, jsonLoads s = some v → safe_parse_json s = v) ∧
    (∀ i j v, jsonLoads s = none → pyFind s '\x7b' = some i → pyRfind s '\x7d' = some j →
      i < j → jsonLoads (pySlice s i (j + 1)) = some v → safe_parse_json s = v) ∧
    (jsonLoads s = none →
      (∀ i j, pyFind s '\x7b' = some i → pyRfind s '\x7d' = some j → i < j →
        jsonLoads (pySlice s i (j + 1)) = none) →
      safe_parse_json s = fallbackReply s) :=
  ⟨spj_of_loads s, fun i j v h1 h2 h3 h4 h5 => spj_of_slice s i j v h1 h2 h3 h4 h5,
   spj_of_fail s⟩

/-- C3 witness: tier 2 fires on prose followed by a single object, and for
an early valid object followed by a later stray brace tier 2 spans from the
first opening to the last closing brace (so it fails and tier 3 fires)
rather than isolating the first balanced object. -/
theorem c3_three_tier_order_witness :
    safe_parse_json "x \x7b\"analysis\": \"a\"\x7d" = JValue.obj [("analysis", JValue.str "a")] ∧
    safe_parse_json "\x7b\"analysis\":\"a\"\x7d \x7d" =
      fallbackReply "\x7b\"analysis\":\"a\"\x7d \x7d" := by
  constructor
  · exact (c3_three_tier_order _).2.1 2 18 _ rfl rfl rfl (by decide) rfl
  · refine (c3_three_tier_order _).2.2 rfl ?_
    intro i j hf hr hij
    rw [show pyFind "\x7b\"analysis\":\"a\"\x7d \x7d" '\x7b' = some 0 from rfl] at hf
    rw [show pyRfind "\x7b\"analysis\":\"a\"\x7d \x7d" '\x7d' = some 17 from rfl] at hr
    cases hf; cases hr
    rfl

/-- C4: when both tiers fail the normaliser returns the fixed fallback
literal as analysis and the stripped input truncated to 2000 characters as
treatment; for a 5000-character brace-free input the fallback treatment
has length exactly 2000. -/
theorem c4_fallback_literal_and_cap :
    (∀ s : String, jsonLoads s = none →
      (∀ i j, pyFind s '\x7b' = some i → pyRfind s '\x7d' = some j → i < j →
        jsonLoads (pySlice s i (j + 1)) = none) →
      safe_parse_json s = JValue.obj
        [("analysis", JValue.str "Could not parse structured analysis from the model output."),
         ("treatment", JValue.str (String.mk ((pyStrip s).take 2000)))]) ∧
    (longRaw.length = 5000 ∧ ∃ t : String,
      safe_parse_json longRaw = JValue.obj
        [("analysis", JValue.str "Could not parse structured analysis from the model output."),
         ("treatment", JValue.str t)] ∧ t.length = 2000) := by
  constructor
  · intro s h1 h2
    exact spj_of_fail s h1 h2
  · refine ⟨by rw [longRaw, String.length_mk, List.length_replicate],
      String.mk (List.replicate 2000 'a'), ?_, by rw [String.length_mk, List.length_replicate]⟩
    have h2 : ∀ i j, pyFind longRaw '\x7b' = some i → pyRfind longRaw '\x7d' = some j →
        i < j → jsonLoads (pySlice longRaw i (j + 1)) = none := by
      intro i j hf hr hij
      rw [longRaw_noBrace] at hf
      cases hf
    rw [spj_of_fail longRaw longRaw_loads h2, fallbackReply, longRaw_strip,
      List.take_replicate, show (2000 ⊓ 5000 : Nat) = 2000 by norm_num]

/-- C1 (amended): the normaliser returns a reply with both fields present,
without raising, for every input whose parse tiers fail or whose parse
yields a JSON object; when both tiers fail both fields are strings.  (As
stated the original claim is false: a string parsing to a non-object JSON
value makes the key-defaulting step raise, see the counterexample.) -/
theorem c1_normalizer_totality (s : String) :
    (∀ kvs, safe_parse_json s = JValue.obj kvs → (normalizeReply s).isSome = true) ∧
    (jsonLoads s = none →
      (∀ i j, pyFind s '\x7b' = some i → pyRfind s '\x7d' = some j → i < j →
        jsonLoads (pySlice s i (j + 1)) = none) →
      ∃ t : String, normalizeReply s =
        some (JValue.str "Could not parse structured analysis from the model output.",
              JValue.str t)) := by
  constructor
  · intro kvs h
    simp [normalizeReply, h, ensure_keys]
  · intro h1 h2
    refine ⟨String.mk ((pyStrip s).take 2000), ?_⟩
    rw [normalizeReply, spj_of_fail s h1 h2]
    rfl

/-- C1 counterexample: the input `5` parses as a non-object JSON value and
the key-defaulting step raises `AttributeError` (modelled `none`), so the
normaliser does not return a reply for every string input. -/
theorem c1_normalizer_totality_counterexample : normalizeReply "5" = none := rfl

/-- C1 witness: the amended statement applied at two concrete inputs. -/
theorem c1_normalizer_totality_witness :
    (normalizeReply "\x7b\x7d").isSome = true ∧
    ∃ t : String, normalizeReply "no json here" =
      some (JValue.str "Could not parse structured analysis from the model output.",
            JValue.str t) := by
  constructor
  · exact (c1_normalizer_totality "\x7b\x7d").1 [] rfl
  · refine (c1_normalizer_totality "no json here").2 rfl ?_
    intro i j hf hr hij
    rw [show pyFind "no json here" '\x7b' = none from rfl] at hf
    cases hf

/-- C2 (amended): after normalisation of any input whose parse yields an
object (including the fallback), both fields are always present -- a
missing key is replaced by its default -- but their values are whatever
the object holds, possibly JSON null or the empty string; they are not
guaranteed non-null non-empty strings (see the counterexample). -/
theorem c2_fields_always_present (s : String) (kvs : List (String × JValue))
    (h : safe_parse_json s = JValue.obj kvs) :
    normalizeReply s =
      some (pyDictGet kvs "analysis" (JValue.str "Analysis not available."),
            pyDictGet kvs "treatment" (JValue.str "Treatment not available.")) := by
  simp [normalizeReply, h, ensure_keys]

/-- C2 counterexample: a JSON-null analysis value and an empty treatment
value pass through normalisation unchanged, so the fields are not always
non-null non-empty strings. -/
theorem c2_fields_always_present_counterexample :
    normalizeReply "\x7b\"analysis\": null, \"treatment\": \"\"\x7d" =
      some (JValue.null, JValue.str "") := rfl

/-- C2 witness: the amended statement applied at a concrete input. -/
theorem c2_fields_always_present_witness :
    normalizeReply "\x7b\"analysis\": \"x\"\x7d" =
      some (pyDictGet [("analysis", JValue.str "x")] "analysis"
              (JValue.str "Analysis not available."),
            pyDictGet [("analysis", JValue.str "x")] "treatment"
              (JValue.str "Treatment not available.")) :=
  c2_fields_always_present "\x7b\"analysis\": \"x\"\x7d" [("analysis", JValue.str "x")] rfl

/-- C5: after a successful tier-1/tier-2 parse, a missing `analysis` key is
substituted with its default and a missing `treatment` key with its
default, key matching is exact (no case-insensitivity) and extra keys are
ignored; in particular an object with only an `analysis` key yields the
treatment default. -/
theorem c5_missing_key_defaults :
    (∀ (s : String) (kvs : List (String × JValue)), safe_parse_json s = JValue.obj kvs →
      (∀ p ∈ kvs, ¬(p.1 = "analysis")) →
      (normalizeReply s).map Prod.fst = some (JValue.str "Analysis not available.")) ∧
    (∀ (s : String) (kvs : List (String × JValue)), safe_parse_json s = JValue.obj kvs →
      (∀ p ∈ kvs, ¬(p.1 = "treatment")) →
      (normalizeReply s).map Prod.snd = some (JValue.str "Treatment not available.")) ∧
    normalizeReply "\x7b\"analysis\":\"only this\"\x7d" =
      some (JValue.str "only this", JValue.str "Treatment not available.") ∧
    normalizeReply "\x7b\"Analysis\":\"x\",\"treatment\":\"t\"\x7d" =
      some (JValue.str "Analysis not available.", JValue.str "t") ∧
    normalizeReply "\x7b\"analysis\":\"a\",\"treatment\":\"t\",\"extra\":1\x7d" =
      some (JValue.str "a", JValue.str "t") := by
  refine ⟨?_, ?_, rfl, rfl, rfl⟩
  · intro s kvs h hno
    simp [normalizeReply, h, ensure_keys, pyDictGet_of_no_key kvs "analysis" _ hno]
  · intro s kvs h hno
    simp [normalizeReply, h, ensure_keys, pyDictGet_of_no_key kvs "treatment" _ hno]

/-- C5 witness: the missing-analysis default at a concrete input. -/
theorem c5_missing_key_defaults_witness :
    (normalizeReply "\x7b\"treatment\":\"t\"\x7d").map Prod.fst =
      some (JValue.str "Analysis not available.") :=
  c5_missing_key_defaults.1 "\x7b\"treatment\":\"t\"\x7d"
    [("treatment", JValue.str "t")] rfl (by decide)

/-- C4 witness: the general fallback shape at a concrete brace-free input. -/
theorem c4_fallback_literal_and_cap_witness :
    safe_parse_json "plain prose" = JValue.obj
      [("analysis", JValue.str "Could not parse structured analysis from the model output."),
       ("treatment", JValue.str (String.mk ((pyStrip "plain prose").take 2000)))] := by
  refine c4_fallback_literal_and_cap.1 "plain prose" rfl ?_
  intro i j hf hr hij
  rw [show pyFind "plain prose" '\x7b' = none from rfl] at hf
  cases hf

end MedAssist

namespace MedAssist


theorem hexVal_hexDigitChar : ∀ n, n < 16 → hexVal (hexDigitChar n) = some n := by decide

theorem escapeChar_length_pos (c : Char) : 1 ≤ (escapeChar c).length := by
  unfold escapeChar
  split_ifs <;> simp

theorem parseStrAux_escape : ∀ (l : List Char) (fuel : Nat) (acc rest : List Char),
    (escapeList l).length < fuel →
    parseStrAux fuel (escapeList l ++ '"' :: rest) acc =
      some (String.mk (acc.reverse ++ l), rest) := by
  intro l
  induction l with
  | nil =>
    intro fuel acc rest hf
    obtain ⟨f, rfl⟩ : ∃ f, fuel = f + 1 := ⟨fuel - 1, by omega⟩
    simp [escapeList, parseStrAux]
  | cons c l ih =>
    intro fuel acc rest hf
    obtain ⟨f, rfl⟩ : ∃ f, fuel = f + 1 := ⟨fuel - 1, by omega⟩
    have hlen : (escapeList l).length < f := by
      have h1 := escapeChar_length_pos c
      have h2 : (escapeList (c :: l)).length = (escapeChar c).length + (escapeList l).length := by
        simp [escapeList, List.length_append]
      omega
    by_cases hq : c = '"'
    · subst hq
      have he : escapeChar '"' = ['\\', '"'] := rfl
      simp only [escapeList, he, List.cons_append, List.append_assoc, List.nil_append]
      have step : parseStrAux (f + 1) ('\\' :: '"' :: (escapeList l ++ '"' :: rest)) acc =
          parseStrAux f (escapeList l ++ '"' :: rest) ('"' :: acc) := rfl
      rw [step, ih f ('"' :: acc) rest hlen]
      simp
    · by_cases hb : c = '\\'
      · subst hb
        have he : escapeChar '\\' = ['\\', '\\'] := rfl
        simp only [escapeList, he, List.cons_append, List.append_assoc, List.nil_append]
        have step : parseStrAux (f + 1) ('\\' :: '\\' :: (escapeList l ++ '"' :: rest)) acc =
            parseStrAux f (escapeList l ++ '"' :: rest) ('\\' :: acc) := rfl
        rw [step, ih f ('\\' :: acc) rest hlen]
        simp
      · by_cases hc : c.toNat < 0x20
        · have h16a : c.toNat / 16 < 16 := by omega
          have h16b : c.toNat % 16 < 16 := by omega
          have he : escapeChar c = ['\\', 'u', '0', '0',
              hexDigitChar (c.toNat / 16), hexDigitChar (c.toNat % 16)] := by
            unfold escapeChar
            rw [if_neg hq, if_neg hb, if_pos hc]
          have hx : hex4 '0' '0' (hexDigitChar (c.toNat / 16)) (hexDigitChar (c.toNat % 16)) =
              some c.toNat := by
            simp [hex4, show hexVal '0' = some 0 from rfl,
              hexVal_hexDigitChar _ h16a, hexVal_hexDigitChar _ h16b]
            omega
          simp only [escapeList, he, List.cons_append, List.append_assoc]
          simp only [parseStrAux]
          norm_num
          rw [hx]
          dsimp only
          rw [if_neg (show ¬(55296 ≤ c.toNat ∧ c.toNat < 56320) by omega)]
          rw [Char.ofNat_toNat, ih f (c :: acc) rest hlen]
          simp
        · have he : escapeChar c = [c] := by
            unfold escapeChar
            rw [if_neg hq, if_neg hb, if_neg hc]
          simp only [escapeList, he, List.cons_append, List.append_assoc, List.nil_append]
          simp only [parseStrAux]
          rw [if_neg hq, if_neg hb, if_neg hc]
          rw [ih f (c :: acc) rest hlen]
          simp

theorem parseJString_escape (l rest : List Char) :
    parseJString (escapeList l ++ '"' :: rest) = some (String.mk l, rest) := by
  unfold parseJString
  rw [parseStrAux_escape l _ [] rest
    (by simp [List.length_append]; omega)]
  simp



theorem parseValue_renderReply (A T : String) (f : Nat) :
    parseValue (f + 4) (renderReply A T).data =
      some (JValue.obj [("analysis", JValue.str A), ("treatment", JValue.str T)], []) := by
  have hkey1 : parseJString ('a' :: 'n' :: 'a' :: 'l' :: 'y' :: 's' :: 'i' :: 's' :: '"' :: ':' :: ' ' :: '"' :: (escapeList A.data ++ '"' :: ',' :: ' ' :: '"' :: ('t' :: 'r' :: 'e' :: 'a' :: 't' :: 'm' :: 'e' :: 'n' :: 't' :: '"' :: ':' :: ' ' :: '"' :: (escapeList T.data ++ ['"', '\x7d'])))) =
      some ("analysis", ':' :: ' ' :: '"' :: (escapeList A.data ++ '"' :: ',' :: ' ' :: '"' :: ('t' :: 'r' :: 'e' :: 'a' :: 't' :: 'm' :: 'e' :: 'n' :: 't' :: '"' :: ':' :: ' ' :: '"' :: (escapeList T.data ++ ['"', '\x7d'])))) :=
    parseJString_escape "analysis".data _
  have hval1 : parseJString (escapeList A.data ++ '"' :: ',' :: ' ' :: '"' :: ('t' :: 'r' :: 'e' :: 'a' :: 't' :: 'm' :: 'e' :: 'n' :: 't' :: '"' :: ':' :: ' ' :: '"' :: (escapeList T.data ++ ['"', '\x7d']))) =
      some (A, ',' :: ' ' :: '"' :: ('t' :: 'r' :: 'e' :: 'a' :: 't' :: 'm' :: 'e' :: 'n' :: 't' :: '"' :: ':' :: ' ' :: '"' :: (escapeList T.data ++ ['"', '\x7d']))) :=
    parseJString_escape A.data _
  have hkey2 : parseJString ('t' :: 'r' :: 'e' :: 'a' :: 't' :: 'm' :: 'e' :: 'n' :: 't' :: '"' :: ':' :: ' ' :: '"' :: (escapeList T.data ++ ['"', '\x7d'])) =
      some ("treatment", ':' :: ' ' :: '"' :: (escapeList T.data ++ ['"', '\x7d'])) :=
    parseJString_escape "treatment".data _
  have hval2 : parseJString (escapeList T.data ++ ['"', '\x7d']) =
      some (T, ['\x7d']) :=
    parseJString_escape T.data _
  show parseValue (f + 4) ('\x7b' :: '"' :: ('a' :: 'n' :: 'a' :: 'l' :: 'y' :: 's' :: 'i' :: 's' :: '"' :: ':' :: ' ' :: '"' :: (escapeList A.data ++ '"' :: ',' :: ' ' :: '"' :: ('t' :: 'r' :: 'e' :: 'a' :: 't' :: 'm' :: 'e' :: 'n' :: 't' :: '"' :: ':' :: ' ' :: '"' :: (escapeList T.data ++ ['"', '\x7d']))))) = _
  simp [parseValue, parseMembers, hkey1, hval1, hkey2, hval2, skipWs, isJsonWs]



/-- C6: for any strings `A` and `T`, the literal JSON object text with
exactly the keys `analysis` and `treatment` bound to `A` and `T`
normalises to the pair `(A, T)` unchanged: tier 1 succeeds and neither
default fires. -/
theorem c6_idempotence_on_valid (A T : String) :
    normalizeReply (renderReply A T) = some (JValue.str A, JValue.str T) := by
  have hlen : 1 ≤ (renderReply A T).length := by
    rw [renderReply, String.length_mk]
    simp [List.length_cons]
  obtain ⟨f, hf⟩ : ∃ f, 2 * (renderReply A T).length + 2 = f + 4 :=
    ⟨2 * (renderReply A T).length - 2, by omega⟩
  have hparse : jsonLoads (renderReply A T) =
      some (JValue.obj [("analysis", JValue.str A), ("treatment", JValue.str T)]) := by
    unfold jsonLoads
    rw [hf]
    rw [show skipWs (renderReply A T).data = (renderReply A T).data from
      skipWs_cons_of_not '\x7b' _ rfl]
    rw [parseValue_renderReply A T f]
    simp [skipWs]
  show ensure_keys (safe_parse_json (renderReply A T)) = _
  rw [spj_of_loads _ _ hparse]
  rfl


end MedAssist

namespace MedAssist


/-- C8: in the speech-synthesis step, a pre-existing output audio file is
deleted (unlinked) before the synthesis call; when the synthesis call
fails, the returned audio path is absent and a visible error note carrying
the failure reason is appended to the treatment field, with the request
still returning all four output values. -/
theorem c8_tts_failure_handling (env : Collab) (audio image : Option String)
    (a t : JValue) (e : String)
    (hp : ensure_keys (safe_parse_json (rawOf env audio image)) = some (a, t))
    (ht : env.tts (pyStr a ++ " " ++ pyStr t) = Except.error e) :
    process_inputs env audio image =
      some (sttStep env audio, a,
        JValue.str (pyStr t ++ "\n\n[TTS generation failed: " ++ e ++ "]"),
        none,
        (if env.finalExists then [AudioEvent.unlinked] else []) ++
          [AudioEvent.synthCalled (pyStr a ++ " " ++ pyStr t)]) ∧
    (env.finalExists = true →
      (if env.finalExists then [AudioEvent.unlinked] else []) ++
          [AudioEvent.synthCalled (pyStr a ++ " " ++ pyStr t)] =
        [AudioEvent.unlinked, AudioEvent.synthCalled (pyStr a ++ " " ++ pyStr t)]) := by
  constructor
  · unfold process_inputs
    dsimp only
    rw [hp]
    dsimp only
    rw [ht]
  · intro hfe
    simp [hfe]

/-- C8 witness: a concrete environment whose synthesis collaborator fails
and whose output file pre-exists. -/
theorem c8_tts_failure_handling_witness :
    process_inputs
      ⟨fun _ => Except.ok none, fun _ => Except.ok "", fun _ _ =>
          Except.ok "\x7b\"analysis\": \"A\", \"treatment\": \"T\"\x7d",
        fun _ => Except.error "boom", true⟩
      none none =
      some ("", JValue.str "A",
        JValue.str ("T" ++ "\n\n[TTS generation failed: " ++ "boom" ++ "]"),
        none, [AudioEvent.unlinked, AudioEvent.synthCalled ("A" ++ " " ++ "T")]) := by
  have h := (c8_tts_failure_handling
    ⟨fun _ => Except.ok none, fun _ => Except.ok "", fun _ _ =>
        Except.ok "\x7b\"analysis\": \"A\", \"treatment\": \"T\"\x7d",
      fun _ => Except.error "boom", true⟩
    none none (JValue.str "A") (JValue.str "T") "boom" rfl rfl).1
  exact h



/-- C9: when an audio input is present and transcription raises, the error
text is substituted inline as the transcript prefixed with `[STT error: `,
the assembled prompt contains it, and the rest of the pipeline still runs,
returning the full tuple and calling the synthesis collaborator. -/
theorem c9_stt_failure_inline (env : Collab) (image : Option String) (ap e : String)
    (a t : JValue)
    (hne : ¬(ap = ""))
    (htr : env.transcribe ap = Except.error e)
    (hp : ensure_keys (safe_parse_json (rawOf env (some ap) image)) = some (a, t)) :
    sttStep env (some ap) = "[STT error: " ++ e ++ "]" ∧
    (∃ pre post, promptStep (sttStep env (some ap)) (imgTruthy image) =
      pre ++ ("[STT error: " ++ e ++ "]") ++ post) ∧
    (∃ t2 p tr, process_inputs env (some ap) image =
      some ("[STT error: " ++ e ++ "]", a, t2, p, tr) ∧
      AudioEvent.synthCalled (pyStr a ++ " " ++ pyStr t) ∈ tr) := by
  have hstt : sttStep env (some ap) = "[STT error: " ++ e ++ "]" := by
    simp [sttStep, hne, htr]
  have hne2 : ¬("[STT error: " ++ e ++ "]" = "") := by
    intro h
    have hlen := congrArg String.length h
    rw [String.length_append, String.length_append,
      show ("[STT error: " : String).length = 12 from rfl,
      show ("]" : String).length = 1 from rfl,
      show ("" : String).length = 0 from rfl] at hlen
    omega
  have hne3 : ¬("[STT error: " ++ (e ++ "]") = "") := by
    intro h
    have hlen := congrArg String.length h
    rw [String.length_append, String.length_append,
      show ("[STT error: " : String).length = 12 from rfl,
      show ("]" : String).length = 1 from rfl,
      show ("" : String).length = 0 from rfl] at hlen
    omega
  refine ⟨hstt, ?_, ?_⟩
  · rw [hstt]
    cases himg : imgTruthy image
    · refine ⟨SYSTEM_PROMPT_TEMPLATE ++ "\n\n" ++ "Patient speech (transcription): ",
        "\n\n" ++ "No image provided.", ?_⟩
      simp [promptStep, hne2, hne3, String.append_assoc]
    · refine ⟨SYSTEM_PROMPT_TEMPLATE ++ "\n\n" ++ "Patient speech (transcription): ",
        "\n\n", ?_⟩
      simp [promptStep, hne2, hne3, String.append_assoc]
  · unfold process_inputs
    dsimp only
    rw [hp]
    dsimp only
    rw [hstt]
    cases hts : env.tts (pyStr a ++ " " ++ pyStr t) with
    | ok u => exact ⟨t, some "final.mp3", _, rfl, by simp⟩
    | error e2 => exact ⟨_, none, _, rfl, by simp⟩

/-- C9 witness: a concrete environment whose transcription collaborator
fails. -/
theorem c9_stt_failure_inline_witness :
    sttStep
      ⟨fun _ => Except.error "net down", fun _ => Except.ok "", fun _ _ =>
          Except.ok "\x7b\"analysis\": \"P\", \"treatment\": \"Q\"\x7d",
        fun _ => Except.ok (), false⟩ (some "voice.wav") = "[STT error: net down]" ∧
    ∃ t2 p tr, process_inputs
      ⟨fun _ => Except.error "net down", fun _ => Except.ok "", fun _ _ =>
          Except.ok "\x7b\"analysis\": \"P\", \"treatment\": \"Q\"\x7d",
        fun _ => Except.ok (), false⟩ (some "voice.wav") none =
      some ("[STT error: net down]", JValue.str "P", t2, p, tr) ∧
      AudioEvent.synthCalled (pyStr (JValue.str "P") ++ " " ++ pyStr (JValue.str "Q")) ∈ tr := by
  have h := c9_stt_failure_inline
    ⟨fun _ => Except.error "net down", fun _ => Except.ok "", fun _ _ =>
        Except.ok "\x7b\"analysis\": \"P\", \"treatment\": \"Q\"\x7d",
      fun _ => Except.ok (), false⟩
    none "voice.wav" "net down" (JValue.str "P") (JValue.str "Q")
    (by simp) rfl rfl
  exact ⟨h.1, h.2.2⟩

/-- C10: when the speech-synthesis step fails, the transcript and the
analysis field returned to the UI are exactly the values produced by the
earlier transcription and normalisation steps; only the treatment field
and the audio path change. -/
theorem c10_tts_failure_frame (env : Collab) (audio image : Option String)
    (a t : JValue) (e : String)
    (hp : ensure_keys (safe_parse_json (rawOf env audio image)) = some (a, t))
    (ht : env.tts (pyStr a ++ " " ++ pyStr t) = Except.error e) :
    ∃ t2 tr, process_inputs env audio image =
      some (sttStep env audio, a, t2, none, tr) := by
  refine ⟨JValue.str (pyStr t ++ "\n\n[TTS generation failed: " ++ e ++ "]"),
    (if env.finalExists then [AudioEvent.unlinked] else []) ++
      [AudioEvent.synthCalled (pyStr a ++ " " ++ pyStr t)], ?_⟩
  unfold process_inputs
  dsimp only
  rw [hp]
  dsimp only
  rw [ht]

/-- C10 witness: a concrete environment with successful transcription and
a failing synthesis collaborator. -/
theorem c10_tts_failure_frame_witness :
    ∃ t2 tr, process_inputs
      ⟨fun _ => Except.ok (some "hello"), fun _ => Except.ok "", fun _ _ =>
          Except.ok "\x7b\"analysis\": \"X\", \"treatment\": \"Y\"\x7d",
        fun _ => Except.error "tts down", false⟩ (some "in.wav") none =
      some (sttStep
        ⟨fun _ => Except.ok (some "hello"), fun _ => Except.ok "", fun _ _ =>
            Except.ok "\x7b\"analysis\": \"X\", \"treatment\": \"Y\"\x7d",
          fun _ => Except.error "tts down", false⟩ (some "in.wav"),
        JValue.str "X", t2, none, tr) :=
  c10_tts_failure_frame
    ⟨fun _ => Except.ok (some "hello"), fun _ => Except.ok "", fun _ _ =>
        Except.ok "\x7b\"analysis\": \"X\", \"treatment\": \"Y\"\x7d",
      fun _ => Except.error "tts down", false⟩
    (some "in.wav") none (JValue.str "X") (JValue.str "Y") "tts down" rfl rfl


end MedAssist
